import Mathlib

/-!
Verification of the decorator examples in `src/decorator.py`.

The repository is a tutorial script whose subject matter is three call
interceptors:

* `CountCalls` — an object wrapper that counts and logs every call and
  forwards it to the wrapped function (decorator.py lines 72–107);
* `_LimitCalls` / `LimitCalls` — an object wrapper with a call limit and an
  optional logging flag, plus the factory admitting both the immediate and the
  deferred (configurator) construction (lines 188–231);
* `LimitCalls2` — the closure-based construction of the same limiting wrapper
  (lines 348–393).

The embedding below is a shallow one: each wrapper object (respectively the
closure `wrapper` together with its `num_calls` attribute) becomes a structure,
and its `__call__` becomes an explicit state-passing function returning the new
state together with the outcome of the invocation: the returned value or the
raised error, the log records emitted on stdout, and whether the wrapped
function was actually applied.

A point of fidelity that matters below: the "before" log statement in all three
wrappers is

  `print("Calling:", name, "#call:", n, "positional-arguments:", *args,
         "keyword-arguments:", **kwargs)`

i.e. the keyword arguments of the intercepted call are splatted into `print`
itself.  In Python, `print` accepts only the keyword parameters `sep`, `end`,
`file` and `flush`; any other keyword raises `TypeError` before anything is
printed, so a logged call that carries ordinary keyword arguments raises
`TypeError` out of the wrapper and never reaches the wrapped function.  The
model keeps this behaviour (`printCallLog` below).  For the four keys `print`
does accept, the model optimistically treats the value as acceptable; this only
widens the set of succeeding calls and is never used in a counterexample.
-/

namespace DecoratorPy

/-- Python errors that the wrappers in decorator.py can raise: the `ValueError`
raised by the call-limit check, and the `TypeError` raised by `print` when the
intercepted call's keyword arguments are splatted into it. -/
inductive PyError where
  | valueError (msg : String)
  | typeError (msg : String)
  deriving DecidableEq, Repr

/-- The arguments of one intercepted call: the positional tuple `*args` and
the keyword dictionary `**kwargs` (keys with their values). -/
structure Args (V : Type) where
  pos : List V
  kw : List (String × V)
  deriving DecidableEq, Repr

/-- A Python function as the wrappers see it: its behaviour on arguments plus
the `__name__` and `__doc__` attributes that `functools.update_wrapper` /
`functools.wraps` copy onto the wrapper. -/
structure PyFunc (V : Type) where
  fn : Args V → V
  name : String
  doc : Option String

/-- One structured record printed by a wrapper: the "Calling:" line emitted
before forwarding (operation name, call index, positional and keyword
arguments) or the "Return from:" line emitted after return (operation name,
call index, returned value). -/
inductive LogRecord (V : Type) where
  | before (fname : String) (callIndex : Nat) (pos : List V) (kw : List (String × V))
  | after (fname : String) (callIndex : Nat) (value : V)
  deriving DecidableEq, Repr

/-- The keyword parameters Python's `print` accepts. -/
def printKeywordParams : List String := ["sep", "end", "file", "flush"]

/-- Model of the statement `print("Calling:", name, "#call:", n,
"positional-arguments:", *args, "keyword-arguments:", **kwargs)` (decorator.py
lines 97, 212 and 374): if some key of `kwargs` is not a keyword parameter of
`print`, the call to `print` raises `TypeError` and no record is emitted;
otherwise the "Calling:" record is emitted. -/
def printCallLog (V : Type) (fname : String) (callIndex : Nat) (a : Args V) :
    Except PyError (LogRecord V) :=
  match a.kw.find? (fun kv => !printKeywordParams.contains kv.1) with
  | some kv => .error (.typeError (kv.1 ++ " is an invalid keyword argument for print"))
  | none => .ok (.before fname callIndex a.pos a.kw)

instance {ε α : Type} [DecidableEq ε] [DecidableEq α] : DecidableEq (Except ε α) :=
  fun x y =>
  match x, y with
  | .ok a, .ok b =>
    if h : a = b then isTrue (by rw [h]) else isFalse (by simp [h])
  | .error a, .error b =>
    if h : a = b then isTrue (by rw [h]) else isFalse (by simp [h])
  | .ok _, .error _ => isFalse (by simp)
  | .error _, .ok _ => isFalse (by simp)

/-- The observable outcome of a single invocation attempt on a wrapper: the
value returned to the caller or the error raised, the log records printed, and
whether the wrapped function was applied (`value = fun(*args, **kwargs)`
executed). -/
structure CallOutcome (V : Type) where
  result : Except PyError V
  records : List (LogRecord V)
  forwarded : Bool
  deriving DecidableEq, Repr

/-- Whether a log record is a "Return from:" (after) record. -/
def LogRecord.isAfterRec : LogRecord V → Bool
  | .after _ _ _ => true
  | .before _ _ _ _ => false

/-- The message of the `ValueError` raised by the call-limit check
(decorator.py lines 209 and 371). -/
def limitMsg (fname : String) (max_hits : Nat) : String :=
  s!"function {fname} number of call limit {max_hits} has been exceeded"

/-- Whether an invocation result is the CallLimitExceeded error for the
operation named `fname` with threshold `max_hits`: the raised `ValueError`
whose message identifies the wrapped function's name and the limit. -/
def isCallLimitExceeded (V : Type) (fname : String) (max_hits : Nat) :
    Except PyError V → Bool
  | .error (.valueError msg) => msg == limitMsg fname max_hits
  | _ => false

/-! ## The `CountCalls` wrapper (decorator.py lines 72–107) -/

/-- State of a `CountCalls` instance: the wrapped function `self.func`, the
call counter `self.num_calls`, and the `__name__` / `__doc__` attributes copied
from the wrapped function by `functools.update_wrapper`. -/
structure CountCalls (V : Type) where
  func : PyFunc V
  num_calls : Nat
  name : String
  doc : Option String

/-- Model of `CountCalls.__init__` (lines 76–87): copy name and docstring from the
wrapped function, keep the function, start the counter at zero. -/
def CountCalls.init (f : PyFunc V) : CountCalls V :=
  { func := f, num_calls := 0, name := f.name, doc := f.doc }

/-- Model of `CountCalls.__call__` (lines 91–106): increment the counter, print the
"Calling:" line (which splats `**kwargs` into `print` and therefore raises
`TypeError` on foreign keyword arguments), forward the call, print the
"Return from:" line, return the wrapped function's value. -/
def CountCalls.call (c : CountCalls V) (a : Args V) :
    CountCalls V × CallOutcome V :=
  let n := c.num_calls + 1
  let c' := { c with num_calls := n }
  match printCallLog V c.func.name n a with
  | .error e => (c', { result := .error e, records := [], forwarded := false })
  | .ok r =>
    let v := c.func.fn a
    (c', { result := .ok v,
           records := [r, .after c.func.name n v],
           forwarded := true })

/-- Run a sequence of calls on a `CountCalls` instance, collecting the
outcomes in order. -/
def runCount (c : CountCalls V) : List (Args V) → CountCalls V × List (CallOutcome V)
  | [] => (c, [])
  | a :: rest =>
    let p := c.call a
    let q := runCount p.1 rest
    (q.1, p.2 :: q.2)

/-! ## The `_LimitCalls` wrapper and the `LimitCalls` factory
(decorator.py lines 188–231) -/

/-- State of a `_LimitCalls` instance: the wrapped function `self.function`,
the configured limit `self.max_hits` and logging flag `self.log_calls`, the
counter `self.num_calls`, and the `__name__` / `__doc__` attributes copied by
`functools.update_wrapper`. -/
structure LimitCallsObj (V : Type) where
  function : PyFunc V
  max_hits : Nat
  log_calls : Bool
  num_calls : Nat
  name : String
  doc : Option String

/-- Model of `_LimitCalls.__init__` (lines 189–202). -/
def LimitCallsObj.init (f : PyFunc V) (max_hits : Nat) (log_calls : Bool) :
    LimitCallsObj V :=
  { function := f, max_hits := max_hits, log_calls := log_calls,
    num_calls := 0, name := f.name, doc := f.doc }

/-- Model of `_LimitCalls.__call__` (lines 204–220): increment the counter; if it now
exceeds `max_hits`, raise the `ValueError` identifying the function name and
the limit without forwarding; otherwise, if `log_calls` is set, print the
"Calling:" line (raising `TypeError` on foreign keyword arguments), forward the
call, print the "Return from:" line, and return the value. -/
def LimitCallsObj.call (s : LimitCallsObj V) (a : Args V) :
    LimitCallsObj V × CallOutcome V :=
  let n := s.num_calls + 1
  let s' := { s with num_calls := n }
  if n > s.max_hits then
    (s', { result := .error (.valueError (limitMsg s.function.name s.max_hits)),
           records := [], forwarded := false })
  else if s.log_calls then
    match printCallLog V s.function.name n a with
    | .error e => (s', { result := .error e, records := [], forwarded := false })
    | .ok r =>
      let v := s.function.fn a
      (s', { result := .ok v,
             records := [r, .after s.function.name n v],
             forwarded := true })
  else
    (s', { result := .ok (s.function.fn a), records := [], forwarded := true })

/-- Default value of the `max_hits` parameter of `LimitCalls` (line 223). -/
def LimitCallsDefaultMaxHits : Nat := 3

/-- Default value of the `log_calls` parameter of `LimitCalls` (line 223). -/
def LimitCallsDefaultLogCalls : Bool := false

/-- What the `LimitCalls` factory returns: either the wrapper object (when a
function was supplied immediately) or the reusable inner `wrapper`
configurator (when called with `function=None`). -/
inductive DecoratorResult (V : Type) where
  | applied (s : LimitCallsObj V)
  | configurator (w : PyFunc V → LimitCallsObj V)

/-- The `LimitCalls` factory (lines 223–231): with a function it returns
`_LimitCalls(function, max_hits, log_calls)` directly; with `function=None` it
returns the nested `wrapper` closure that builds the `_LimitCalls` object for a
function supplied later.  (`if function:` is truth-testing, but a function
object is always truthy, so `Option.some` / `Option.none` model it exactly;
the factory's own `print` banner has no observable effect on the wrapper.) -/
def LimitCalls (V : Type) (function : Option (PyFunc V)) (max_hits : Nat)
    (log_calls : Bool) : DecoratorResult V :=
  match function with
  | some f => .applied (LimitCallsObj.init f max_hits log_calls)
  | none => .configurator (fun f => LimitCallsObj.init f max_hits log_calls)

/-- Run a sequence of calls on a `_LimitCalls` instance, collecting the
outcomes in order. -/
def runLimit (s : LimitCallsObj V) :
    List (Args V) → LimitCallsObj V × List (CallOutcome V)
  | [] => (s, [])
  | a :: rest =>
    let p := s.call a
    let q := runLimit p.1 rest
    (q.1, p.2 :: q.2)

/-! ## The closure-based `LimitCalls2` (decorator.py lines 348–393) -/

/-- State of the closure-based wrapper: the `wrapper` function object produced
by `forward_func_call`, carrying its `num_calls` attribute, the captured
`func`, `max_hits` and `log_calls`, and the `__name__` / `__doc__` attributes
copied by `functools.wraps`. -/
structure Wrapper2 (V : Type) where
  func : PyFunc V
  max_hits : Nat
  log_calls : Bool
  num_calls : Nat
  name : String
  doc : Option String

/-- Model of `forward_func_call` (lines 354–387): build the `wrapper` closure around
`func`, copy name and docstring via `functools.wraps`, and initialise
`wrapper.num_calls = 0`. -/
def forward_func_call (max_hits : Nat) (log_calls : Bool) (func : PyFunc V) :
    Wrapper2 V :=
  { func := func, max_hits := max_hits, log_calls := log_calls,
    num_calls := 0, name := func.name, doc := func.doc }

/-- The body of `wrapper` (lines 363–381): increment `wrapper.num_calls`; if
it now exceeds the captured `max_hits`, raise the `ValueError`; otherwise log
(if `log_calls`), forward, log the return, and return the value. -/
def Wrapper2.call (w : Wrapper2 V) (a : Args V) : Wrapper2 V × CallOutcome V :=
  let n := w.num_calls + 1
  let w' := { w with num_calls := n }
  if n > w.max_hits then
    (w', { result := .error (.valueError (limitMsg w.func.name w.max_hits)),
           records := [], forwarded := false })
  else if w.log_calls then
    match printCallLog V w.func.name n a with
    | .error e => (w', { result := .error e, records := [], forwarded := false })
    | .ok r =>
      let v := w.func.fn a
      (w', { result := .ok v,
             records := [r, .after w.func.name n v],
             forwarded := true })
  else
    (w', { result := .ok (w.func.fn a), records := [], forwarded := true })

/-- What `LimitCalls2` returns: the wrapper (when `_func` was supplied) or the
`forward_func_call` configurator (when `_func is None`). -/
inductive Decorator2Result (V : Type) where
  | applied (w : Wrapper2 V)
  | configurator (g : PyFunc V → Wrapper2 V)

/-- The `LimitCalls2` factory (lines 348–393): with `_func is None` it returns
the `forward_func_call` closure; otherwise it applies it immediately. -/
def LimitCalls2 (V : Type) (_func : Option (PyFunc V)) (max_hits : Nat)
    (log_calls : Bool) : Decorator2Result V :=
  match _func with
  | none => .configurator (forward_func_call max_hits log_calls)
  | some f => .applied (forward_func_call max_hits log_calls f)

/-- Run a sequence of calls on a closure-based wrapper, collecting the
outcomes in order. -/
def runWrapper (w : Wrapper2 V) :
    List (Args V) → Wrapper2 V × List (CallOutcome V)
  | [] => (w, [])
  | a :: rest =>
    let p := w.call a
    let q := runWrapper p.1 rest
    (q.1, p.2 :: q.2)

/-- Interleave calls on two `_LimitCalls` instances: each script entry says
which of the two interceptors is invoked (`true` for the first) and with what
arguments; returns both final states. -/
def runPairLimit (sa sb : LimitCallsObj V) :
    List (Bool × Args V) → LimitCallsObj V × LimitCallsObj V
  | [] => (sa, sb)
  | e :: rest =>
    match e.1 with
    | true => runPairLimit (sa.call e.2).1 sb rest
    | false => runPairLimit sa (sb.call e.2).1 rest

/-- The entries of an interleaved script addressed to the first interceptor. -/
def scriptFst (script : List (Bool × Args V)) : List (Args V) :=
  script.filterMap (fun e => match e.1 with | true => some e.2 | false => none)

/-- The entries of an interleaved script addressed to the second
interceptor. -/
def scriptSnd (script : List (Bool × Args V)) : List (Args V) :=
  script.filterMap (fun e => match e.1 with | true => none | false => some e.2)

/-- Field-for-field correspondence between a `_LimitCalls` object and the
closure-based wrapper holding the same wrapped function, configuration,
counter and copied attributes. -/
def toWrapper2 (s : LimitCallsObj V) : Wrapper2 V :=
  { func := s.function, max_hits := s.max_hits, log_calls := s.log_calls,
    num_calls := s.num_calls, name := s.name, doc := s.doc }

/-! ## Single-call lemmas -/

/-- Whether the keyword arguments of a call are all keyword parameters of
`print`, so that splatting them into `print` does not raise. -/
def kwPrintSafe (a : Args V) : Bool :=
  a.kw.all (fun kv => printKeywordParams.contains kv.1)

theorem printCallLog_eq_ok {V : Type} {fname : String} {n : Nat} {a : Args V}
    (h : kwPrintSafe a = true) :
    printCallLog V fname n a = .ok (.before fname n a.pos a.kw) := by
  unfold printCallLog
  simp only [kwPrintSafe, List.all_eq_true] at h
  have hfind : a.kw.find? (fun kv => !printKeywordParams.contains kv.1) = none := by
    rw [List.find?_eq_none]
    intro kv hkv
    simpa using h kv hkv
  rw [hfind]

theorem printCallLog_ok_elim {V : Type} {fname : String} {n : Nat} {a : Args V}
    {r : LogRecord V} (h : printCallLog V fname n a = .ok r) :
    r = .before fname n a.pos a.kw := by
  unfold printCallLog at h
  cases hfind : a.kw.find? (fun kv => !printKeywordParams.contains kv.1) with
  | none => rw [hfind] at h; cases h; rfl
  | some kv => rw [hfind] at h; cases h

theorem printCallLog_error_elim {V : Type} {fname : String} {n : Nat} {a : Args V}
    {e : PyError} (h : printCallLog V fname n a = .error e) :
    ∃ m, e = .typeError m := by
  unfold printCallLog at h
  cases hfind : a.kw.find? (fun kv => !printKeywordParams.contains kv.1) with
  | none => rw [hfind] at h; cases h
  | some kv =>
    rw [hfind] at h
    cases h
    exact ⟨_, rfl⟩

theorem countCalls_call_fst (c : CountCalls V) (a : Args V) :
    (c.call a).1 = { c with num_calls := c.num_calls + 1 } := by
  unfold CountCalls.call
  cases h : printCallLog V c.func.name (c.num_calls + 1) a <;> simp [h]

theorem limitObj_call_fst (s : LimitCallsObj V) (a : Args V) :
    (s.call a).1 = { s with num_calls := s.num_calls + 1 } := by
  unfold LimitCallsObj.call
  by_cases h1 : s.num_calls + 1 > s.max_hits
  · rw [if_pos h1]
  · rw [if_neg h1]
    by_cases h2 : s.log_calls = true
    · rw [if_pos h2]
      cases printCallLog V s.function.name (s.num_calls + 1) a <;> rfl
    · rw [if_neg h2]

theorem wrapper2_call_fst (w : Wrapper2 V) (a : Args V) :
    (w.call a).1 = { w with num_calls := w.num_calls + 1 } := by
  unfold Wrapper2.call
  by_cases h1 : w.num_calls + 1 > w.max_hits
  · rw [if_pos h1]
  · rw [if_neg h1]
    by_cases h2 : w.log_calls = true
    · rw [if_pos h2]
      cases printCallLog V w.func.name (w.num_calls + 1) a <;> rfl
    · rw [if_neg h2]

theorem limitObj_call_snd_reject {s : LimitCallsObj V} (a : Args V)
    (h : s.num_calls + 1 > s.max_hits) :
    (s.call a).2 = { result := .error (.valueError (limitMsg s.function.name s.max_hits)),
                     records := [], forwarded := false } := by
  unfold LimitCallsObj.call
  rw [if_pos h]

theorem limitObj_call_snd_ok_nolog {s : LimitCallsObj V} (a : Args V)
    (h1 : ¬ s.num_calls + 1 > s.max_hits) (h2 : s.log_calls = false) :
    (s.call a).2 = { result := .ok (s.function.fn a), records := [], forwarded := true } := by
  unfold LimitCallsObj.call
  rw [if_neg h1, if_neg (by simp [h2])]

theorem limitObj_call_snd_log_err {s : LimitCallsObj V} {a : Args V} {e : PyError}
    (h1 : ¬ s.num_calls + 1 > s.max_hits) (h2 : s.log_calls = true)
    (h3 : printCallLog V s.function.name (s.num_calls + 1) a = .error e) :
    (s.call a).2 = { result := .error e, records := [], forwarded := false } := by
  unfold LimitCallsObj.call
  rw [if_neg h1, if_pos h2, h3]

theorem limitObj_call_snd_log_ok {s : LimitCallsObj V} {a : Args V} {r : LogRecord V}
    (h1 : ¬ s.num_calls + 1 > s.max_hits) (h2 : s.log_calls = true)
    (h3 : printCallLog V s.function.name (s.num_calls + 1) a = .ok r) :
    (s.call a).2 = { result := .ok (s.function.fn a),
                     records := [r, .after s.function.name (s.num_calls + 1) (s.function.fn a)],
                     forwarded := true } := by
  unfold LimitCallsObj.call
  rw [if_neg h1, if_pos h2, h3]

theorem wrapper2_call_snd_reject {w : Wrapper2 V} (a : Args V)
    (h : w.num_calls + 1 > w.max_hits) :
    (w.call a).2 = { result := .error (.valueError (limitMsg w.func.name w.max_hits)),
                     records := [], forwarded := false } := by
  unfold Wrapper2.call
  rw [if_pos h]

theorem wrapper2_call_snd_ok_nolog {w : Wrapper2 V} (a : Args V)
    (h1 : ¬ w.num_calls + 1 > w.max_hits) (h2 : w.log_calls = false) :
    (w.call a).2 = { result := .ok (w.func.fn a), records := [], forwarded := true } := by
  unfold Wrapper2.call
  rw [if_neg h1, if_neg (by simp [h2])]

theorem wrapper2_call_snd_log_err {w : Wrapper2 V} {a : Args V} {e : PyError}
    (h1 : ¬ w.num_calls + 1 > w.max_hits) (h2 : w.log_calls = true)
    (h3 : printCallLog V w.func.name (w.num_calls + 1) a = .error e) :
    (w.call a).2 = { result := .error e, records := [], forwarded := false } := by
  unfold Wrapper2.call
  rw [if_neg h1, if_pos h2, h3]

theorem wrapper2_call_snd_log_ok {w : Wrapper2 V} {a : Args V} {r : LogRecord V}
    (h1 : ¬ w.num_calls + 1 > w.max_hits) (h2 : w.log_calls = true)
    (h3 : printCallLog V w.func.name (w.num_calls + 1) a = .ok r) :
    (w.call a).2 = { result := .ok (w.func.fn a),
                     records := [r, .after w.func.name (w.num_calls + 1) (w.func.fn a)],
                     forwarded := true } := by
  unfold Wrapper2.call
  rw [if_neg h1, if_pos h2, h3]

/-! ## Sequence-level lemmas -/

theorem runLimit_fst (s : LimitCallsObj V) (l : List (Args V)) :
    (runLimit s l).1 = { s with num_calls := s.num_calls + l.length } := by
  induction l generalizing s with
  | nil => rfl
  | cons a rest ih =>
    simp only [runLimit]
    rw [limitObj_call_fst, ih]
    simp only [List.length_cons]
    congr 1
    omega

theorem runLimit_length (s : LimitCallsObj V) (l : List (Args V)) :
    (runLimit s l).2.length = l.length := by
  induction l generalizing s with
  | nil => rfl
  | cons a rest ih => simp only [runLimit, List.length_cons, ih]

theorem runLimit_getElem? (s : LimitCallsObj V) (l : List (Args V)) (i : Nat) (a : Args V)
    (ha : l[i]? = some a) :
    (runLimit s l).2[i]? = some (({ s with num_calls := s.num_calls + i }).call a).2 := by
  induction l generalizing s i with
  | nil => simp at ha
  | cons x rest ih =>
    cases i with
    | zero =>
      simp only [List.getElem?_cons_zero, Option.some.injEq] at ha
      subst ha
      simp only [runLimit, List.getElem?_cons_zero]
      rfl
    | succ j =>
      simp only [List.getElem?_cons_succ] at ha
      simp only [runLimit, List.getElem?_cons_succ]
      rw [limitObj_call_fst, ih _ j ha]
      have hn : s.num_calls + 1 + j = s.num_calls + (j + 1) := by omega
      dsimp only
      rw [hn]

/-- A call that reached the wrapped function was within the limit. -/
theorem limitObj_call_forwarded_le {s : LimitCallsObj V} {a : Args V}
    (h : (s.call a).2.forwarded = true) : s.num_calls + 1 ≤ s.max_hits := by
  by_contra hc
  rw [limitObj_call_snd_reject a (by omega)] at h
  cases h

theorem runLimit_countForwarded_le (s : LimitCallsObj V) (l : List (Args V)) :
    (runLimit s l).2.countP (fun o => o.forwarded) ≤ s.max_hits - s.num_calls := by
  induction l generalizing s with
  | nil => simp [runLimit]
  | cons a rest ih =>
    simp only [runLimit, List.countP_cons]
    rw [limitObj_call_fst]
    have hrest := ih { s with num_calls := s.num_calls + 1 }
    dsimp only at hrest
    by_cases hf : (s.call a).2.forwarded = true
    · have hle := limitObj_call_forwarded_le hf
      rw [if_pos hf]
      omega
    · rw [if_neg hf]
      omega

/-- The invocation result is the CallLimitExceeded error exactly when the
incremented counter exceeds the configured limit. -/
theorem call_limitExceeded_iff (s : LimitCallsObj V) (a : Args V) :
    isCallLimitExceeded V s.function.name s.max_hits (s.call a).2.result = true
      ↔ s.num_calls + 1 > s.max_hits := by
  constructor
  · intro h
    by_contra hn
    by_cases h2 : s.log_calls = true
    · cases h3 : printCallLog V s.function.name (s.num_calls + 1) a with
      | error e =>
        rw [limitObj_call_snd_log_err hn h2 h3] at h
        have hr := printCallLog_error_elim h3
        obtain ⟨m, hm⟩ := hr
        subst hm
        simp [isCallLimitExceeded] at h
      | ok r =>
        rw [limitObj_call_snd_log_ok hn h2 h3] at h
        simp [isCallLimitExceeded] at h
    · rw [limitObj_call_snd_ok_nolog a hn (by simpa using h2)] at h
      simp [isCallLimitExceeded] at h
  · intro h
    rw [limitObj_call_snd_reject a h]
    simp [isCallLimitExceeded]

theorem runPairLimit_eq (sa sb : LimitCallsObj V) (script : List (Bool × Args V)) :
    runPairLimit sa sb script
      = ((runLimit sa (scriptFst script)).1, (runLimit sb (scriptSnd script)).1) := by
  induction script generalizing sa sb with
  | nil => rfl
  | cons e rest ih =>
    obtain ⟨side, a⟩ := e
    cases side with
    | true =>
      simp only [runPairLimit, scriptFst, scriptSnd, List.filterMap_cons, runLimit] at ih ⊢
      rw [ih]
    | false =>
      simp only [runPairLimit, scriptFst, scriptSnd, List.filterMap_cons, runLimit] at ih ⊢
      rw [ih]

/-- A single call on the closure-based wrapper corresponding to a
`_LimitCalls` object mirrors the object's call exactly. -/
theorem toWrapper2_call (s : LimitCallsObj V) (a : Args V) :
    (toWrapper2 s).call a = (toWrapper2 (s.call a).1, (s.call a).2) := by
  have hfst : ((toWrapper2 s).call a).1 = toWrapper2 (s.call a).1 := by
    rw [wrapper2_call_fst, limitObj_call_fst]
    rfl
  have hsnd : ((toWrapper2 s).call a).2 = (s.call a).2 := by
    by_cases h1 : s.num_calls + 1 > s.max_hits
    · rw [wrapper2_call_snd_reject a h1, limitObj_call_snd_reject a h1]
      rfl
    · by_cases h2 : s.log_calls = true
      · cases h3 : printCallLog V s.function.name (s.num_calls + 1) a with
        | error e =>
          rw [wrapper2_call_snd_log_err h1 h2 h3, limitObj_call_snd_log_err h1 h2 h3]
        | ok r =>
          rw [wrapper2_call_snd_log_ok h1 h2 h3, limitObj_call_snd_log_ok h1 h2 h3]
          rfl
      · have h2' : s.log_calls = false := by simpa using h2
        rw [wrapper2_call_snd_ok_nolog a h1 h2', limitObj_call_snd_ok_nolog a h1 h2']
        rfl
  calc (toWrapper2 s).call a = (((toWrapper2 s).call a).1, ((toWrapper2 s).call a).2) := rfl
    _ = (toWrapper2 (s.call a).1, (s.call a).2) := by rw [hfst, hsnd]

theorem runWrapper_toWrapper2 (s : LimitCallsObj V) (l : List (Args V)) :
    runWrapper (toWrapper2 s) l = (toWrapper2 (runLimit s l).1, (runLimit s l).2) := by
  induction l generalizing s with
  | nil => rfl
  | cons a rest ih =>
    simp only [runWrapper, runLimit]
    rw [toWrapper2_call]
    simp only
    rw [ih]

/-- Inverse of `toWrapper2`; with `toWrapper2` it identifies the observable
state of the two wrapper constructions. -/
def ofWrapper2 (w : Wrapper2 V) : LimitCallsObj V :=
  { function := w.func, max_hits := w.max_hits, log_calls := w.log_calls,
    num_calls := w.num_calls, name := w.name, doc := w.doc }

theorem wrapper2_call_snd_eq (w : Wrapper2 V) (b : Args V) :
    (w.call b).2 = ((ofWrapper2 w).call b).2 := by
  have h := toWrapper2_call (ofWrapper2 w) b
  calc (w.call b).2 = ((toWrapper2 (ofWrapper2 w)).call b).2 := rfl
    _ = ((ofWrapper2 w).call b).2 := by rw [h]

/-- A successful logged call emits exactly the "Calling:" record (with the
call's positional and keyword arguments) followed by the "Return from:" record
(with the returned value). -/
theorem limitObj_call_records_ok {s : LimitCallsObj V} {a : Args V}
    (hs : s.log_calls = true) {v : V} (hv : (s.call a).2.result = .ok v) :
    (s.call a).2.records
      = [.before s.function.name (s.num_calls + 1) a.pos a.kw,
         .after s.function.name (s.num_calls + 1) v] := by
  by_cases h1 : s.num_calls + 1 > s.max_hits
  · rw [limitObj_call_snd_reject a h1] at hv
    simp at hv
  · cases h3 : printCallLog V s.function.name (s.num_calls + 1) a with
    | error e =>
      rw [limitObj_call_snd_log_err h1 hs h3] at hv
      simp at hv
    | ok r =>
      have hr := printCallLog_ok_elim h3
      subst hr
      rw [limitObj_call_snd_log_ok h1 hs h3] at hv ⊢
      have hfv : s.function.fn a = v := by simpa using hv
      rw [show ({ result := Except.ok (s.function.fn a),
                  records := [LogRecord.before s.function.name (s.num_calls + 1) a.pos a.kw,
                              LogRecord.after s.function.name (s.num_calls + 1) (s.function.fn a)],
                  forwarded := true } : CallOutcome V).records
            = [LogRecord.before s.function.name (s.num_calls + 1) a.pos a.kw,
               LogRecord.after s.function.name (s.num_calls + 1) (s.function.fn a)] from rfl]
      rw [hfv]

/-- A call whose result is an error printed no record at all: the limit check
raises before the logging line, and a failing logging line raises before
printing. -/
theorem limitObj_call_records_err {s : LimitCallsObj V} {a : Args V}
    {e : PyError} (he : (s.call a).2.result = .error e) :
    (s.call a).2.records = [] := by
  by_cases h1 : s.num_calls + 1 > s.max_hits
  · rw [limitObj_call_snd_reject a h1]
  · by_cases h2 : s.log_calls = true
    · cases h3 : printCallLog V s.function.name (s.num_calls + 1) a with
      | error e2 =>
        rw [limitObj_call_snd_log_err h1 h2 h3]
      | ok r =>
        rw [limitObj_call_snd_log_ok h1 h2 h3] at he
        simp at he
    · rw [limitObj_call_snd_ok_nolog a h1 (by simpa using h2)] at he
      simp at he

/-! ## Concrete functions and call sequences from the tutorial -/

/-- The `square_me` function of the tutorial (decorator.py lines 242–244),
reading its single positional argument. -/
def squareFn : PyFunc Nat :=
  { fn := fun a => a.pos.headD 0 * a.pos.headD 0,
    name := "square_me",
    doc := some " return a square of the argument " }

/-- The `inc_me` function of the tutorial (decorator.py lines 167–168). -/
def incFn : PyFunc Nat :=
  { fn := fun a => a.pos.headD 0 + 1, name := "inc_me", doc := none }

/-- The calls `square_me(2), square_me(3), square_me(4), square_me(5)`. -/
def squareCalls4 : List (Args Nat) :=
  [⟨[2], []⟩, ⟨[3], []⟩, ⟨[4], []⟩, ⟨[5], []⟩]

/-- Five positional calls `square_me(2) … square_me(6)`. -/
def squareCalls5 : List (Args Nat) :=
  [⟨[2], []⟩, ⟨[3], []⟩, ⟨[4], []⟩, ⟨[5], []⟩, ⟨[6], []⟩]

example :
    ((runLimit (LimitCallsObj.init squareFn 3 false) squareCalls4).2.map CallOutcome.result)
      = [.ok 4, .ok 9, .ok 16, .error (.valueError (limitMsg "square_me" 3))] := by
  decide

example : (runLimit (LimitCallsObj.init squareFn 3 false) squareCalls4).1.num_calls = 4 := by
  decide

example :
    ((CountCalls.init incFn).call ⟨[1], [("number_argument", 2)]⟩).2
      = { result := .error (.typeError "number_argument is an invalid keyword argument for print"),
          records := [], forwarded := false } := by
  decide

example :
    ((LimitCallsObj.init incFn 3 true).call ⟨[], [("number_argument", 1)]⟩).2.result
      = .error (.typeError "number_argument is an invalid keyword argument for print") := by
  decide

example :
    ((LimitCallsObj.init squareFn 3 true).call ⟨[2], []⟩).2
      = { result := .ok 4,
          records := [.before "square_me" 1 [2] [], .after "square_me" 1 4],
          forwarded := true } := by
  decide

/-! ## The claims -/

/-- Claim C2: for every interceptor — the counting wrapper, the object-based
limiting wrapper, and the closure-based limiting wrapper — every invocation
attempt leaves the call counter at exactly its previous value plus one,
whether the attempt succeeded or was rejected.  Invocation is the only
operation these interceptors have, so the counter is never decreased or reset
during an interceptor's lifetime. -/
theorem claim2_counter_increments_by_one :
    ∀ (V : Type) (c : CountCalls V) (s : LimitCallsObj V) (w : Wrapper2 V) (a : Args V),
      (c.call a).1.num_calls = c.num_calls + 1
      ∧ (s.call a).1.num_calls = s.num_calls + 1
      ∧ (w.call a).1.num_calls = w.num_calls + 1 := by
  intro V c s w a
  refine ⟨?_, ?_, ?_⟩
  · rw [countCalls_call_fst]
  · rw [limitObj_call_fst]
  · rw [wrapper2_call_fst]

/-- Claim C3 (code bug): the counting wrapper is documented (decorator.py
lines 90 and 75) as forwarding both positional and keyword arguments to the
wrapped function, but its logging line splats `**kwargs` into `print` itself,
so any call carrying an ordinary keyword argument raises `TypeError` inside
`print` and never reaches the wrapped function — the counter is still
incremented.  This theorem evaluates the model at the failing input
`inc_me(1, number_argument=2)`. -/
theorem claim3_countcalls_kwargs_bug :
    ((CountCalls.init incFn).call ⟨[1], [("number_argument", 2)]⟩).2
        = { result := .error (.typeError "number_argument is an invalid keyword argument for print"),
            records := [], forwarded := false }
    ∧ ((CountCalls.init incFn).call ⟨[1], [("number_argument", 2)]⟩).1.num_calls = 1 := by
  decide

/-- Claim C5: `LimitCalls` (and `LimitCalls2`) called without a target returns
the reusable configurator; applying that configurator to a function yields
exactly the interceptor that immediate configuration yields, both applications
start with counter 0, and under any interleaving of calls to the two
interceptors each evolves exactly as if it were driven by its own calls alone
— invoking one never changes the other. -/
theorem claim5_configurator_independent :
    ∀ (V : Type) (mh : Nat) (lc : Bool) (f g : PyFunc V) (script : List (Bool × Args V)),
      LimitCalls V none mh lc
          = DecoratorResult.configurator (fun h => LimitCallsObj.init h mh lc)
      ∧ LimitCalls V (some f) mh lc
          = DecoratorResult.applied (LimitCallsObj.init f mh lc)
      ∧ LimitCalls2 V none mh lc
          = Decorator2Result.configurator (forward_func_call mh lc)
      ∧ LimitCalls2 V (some f) mh lc
          = Decorator2Result.applied (forward_func_call mh lc f)
      ∧ (LimitCallsObj.init f mh lc).num_calls = 0
      ∧ (LimitCallsObj.init g mh lc).num_calls = 0
      ∧ runPairLimit (LimitCallsObj.init f mh lc) (LimitCallsObj.init g mh lc) script
          = ((runLimit (LimitCallsObj.init f mh lc) (scriptFst script)).1,
             (runLimit (LimitCallsObj.init g mh lc) (scriptSnd script)).1) := by
  intro V mh lc f g script
  exact ⟨rfl, rfl, rfl, rfl, rfl, rfl, runPairLimit_eq _ _ script⟩

/-- Claim C7: the object-based interceptor `_LimitCalls` and the closure-based
wrapper built by `LimitCalls2` are observationally equivalent: for the same
threshold, logging flag and wrapped function, the closure-based wrapper is
field-for-field the image of the object under `toWrapper2`, and over any call
sequence both produce identical outcomes (results, raised errors, log records,
forwarding) and identical states — in particular identical counter values,
since `toWrapper2` preserves `num_calls`. -/
theorem claim7_object_closure_equivalent :
    ∀ (V : Type) (mh : Nat) (lc : Bool) (f : PyFunc V) (l : List (Args V)),
      LimitCalls2 V (some f) mh lc = Decorator2Result.applied (forward_func_call mh lc f)
      ∧ forward_func_call mh lc f = toWrapper2 (LimitCallsObj.init f mh lc)
      ∧ (runWrapper (forward_func_call mh lc f) l).2
          = (runLimit (LimitCallsObj.init f mh lc) l).2
      ∧ (runWrapper (forward_func_call mh lc f) l).1
          = toWrapper2 (runLimit (LimitCallsObj.init f mh lc) l).1
      ∧ (runWrapper (forward_func_call mh lc f) l).1.num_calls
          = (runLimit (LimitCallsObj.init f mh lc) l).1.num_calls := by
  intro V mh lc f l
  have h0 : forward_func_call mh lc f = toWrapper2 (LimitCallsObj.init f mh lc) := rfl
  have h := runWrapper_toWrapper2 (LimitCallsObj.init f mh lc) l
  refine ⟨rfl, h0, ?_, ?_, ?_⟩
  · rw [h0, h]
  · rw [h0, h]
  · rw [h0, h]
    rfl

/-- Claim C8: an invocation of a limiting interceptor (either construction
style) mutates only the call counter: the new state is the old one with the
counter incremented, so the wrapped function, the threshold and the logging
flag are exactly as fixed at construction, for accepted and rejected calls
alike. -/
theorem claim8_call_mutates_only_counter :
    ∀ (V : Type) (s : LimitCallsObj V) (w : Wrapper2 V) (a b : Args V),
      (s.call a).1 = { s with num_calls := s.num_calls + 1 }
      ∧ (s.call a).1.function = s.function
      ∧ (s.call a).1.max_hits = s.max_hits
      ∧ (s.call a).1.log_calls = s.log_calls
      ∧ (w.call b).1 = { w with num_calls := w.num_calls + 1 }
      ∧ (w.call b).1.func = w.func
      ∧ (w.call b).1.max_hits = w.max_hits
      ∧ (w.call b).1.log_calls = w.log_calls := by
  intro V s w a b
  refine ⟨limitObj_call_fst s a, ?_, ?_, ?_, wrapper2_call_fst w b, ?_, ?_, ?_⟩
  · rw [limitObj_call_fst]
  · rw [limitObj_call_fst]
  · rw [limitObj_call_fst]
  · rw [wrapper2_call_fst]
  · rw [wrapper2_call_fst]
  · rw [wrapper2_call_fst]

/-- Claim C10: immediately after construction of any of the three interceptors
around a function, the wrapper's exposed name and docstring equal those of the
wrapped function (copied by `functools.update_wrapper` / `functools.wraps`),
and its call counter is zero. -/
theorem claim10_constructed_state :
    ∀ (V : Type) (f : PyFunc V) (mh : Nat) (lc : Bool),
      (CountCalls.init f).name = f.name ∧ (CountCalls.init f).doc = f.doc
      ∧ (CountCalls.init f).num_calls = 0
      ∧ (LimitCallsObj.init f mh lc).name = f.name
      ∧ (LimitCallsObj.init f mh lc).doc = f.doc
      ∧ (LimitCallsObj.init f mh lc).num_calls = 0
      ∧ (forward_func_call mh lc f).name = f.name
      ∧ (forward_func_call mh lc f).doc = f.doc
      ∧ (forward_func_call mh lc f).num_calls = 0 := by
  intro V f mh lc
  exact ⟨rfl, rfl, rfl, rfl, rfl, rfl, rfl, rfl, rfl⟩

/-- Claim C1 (amended): for a limiting interceptor with threshold `T` over an
operation `f` and any sequence of `T + 1` calls — provided that, when logging
is enabled, the calls carry no keyword argument that `print` rejects (the
logging line splats `**kwargs` into `print`) — each of the first `T`
invocations forwards to `f` and returns its result, the `(T+1)`-th invocation
fails with the CallLimitExceeded `ValueError`, and the exposed counter after
the rejected invocation equals `T + 1`. -/
theorem claim1_threshold_behaviour (V : Type) (f : PyFunc V) (T : Nat) (lc : Bool)
    (l : List (Args V)) (hlen : l.length = T + 1)
    (hkw : lc = true → ∀ a ∈ l, kwPrintSafe a = true) :
    (∀ i a, i < T → l[i]? = some a →
        ((runLimit (LimitCallsObj.init f T lc) l).2[i]?).map CallOutcome.result
            = some (.ok (f.fn a))
        ∧ ((runLimit (LimitCallsObj.init f T lc) l).2[i]?).map CallOutcome.forwarded
            = some true)
    ∧ (∀ a, l[T]? = some a →
        ((runLimit (LimitCallsObj.init f T lc) l).2[T]?).map CallOutcome.result
            = some (.error (.valueError (limitMsg f.name T))))
    ∧ (runLimit (LimitCallsObj.init f T lc) l).1.num_calls = T + 1 := by
  refine ⟨?_, ?_, ?_⟩
  · intro i a hi ha
    rw [runLimit_getElem? _ l i a ha]
    cases hlc : lc with
    | false =>
      subst hlc
      rw [limitObj_call_snd_ok_nolog a (show ¬ 0 + i + 1 > T by omega) rfl]
      exact ⟨rfl, rfl⟩
    | true =>
      subst hlc
      have hmem : a ∈ l := by
        have hil : i < l.length := by
          by_contra hc
          rw [List.getElem?_eq_none (by omega)] at ha
          cases ha
        have : l[i] = a := by
          have := List.getElem?_eq_getElem hil
          rw [this] at ha
          exact Option.some.inj ha
        exact this ▸ l.getElem_mem hil
      have hok : printCallLog V f.name (0 + i + 1) a
          = .ok (.before f.name (0 + i + 1) a.pos a.kw) :=
        printCallLog_eq_ok (hkw rfl a hmem)
      rw [limitObj_call_snd_log_ok (show ¬ 0 + i + 1 > T by omega) rfl hok]
      exact ⟨rfl, rfl⟩
  · intro a ha
    rw [runLimit_getElem? _ l T a ha]
    rw [limitObj_call_snd_reject a (show 0 + T + 1 > T by omega)]
    rfl
  · rw [runLimit_fst]
    show 0 + l.length = T + 1
    omega

/-- Witness for C1: the tutorial's own example — `square_me` under the default
threshold 3, called as `square_me(2) … square_me(5)` — leaves the counter at
`3 + 1` (and the theorem's other conjuncts give results 4, 9, 16 and then the
CallLimitExceeded error). -/
theorem claim1_threshold_behaviour_witness :
    (runLimit (LimitCallsObj.init squareFn 3 false) squareCalls4).1.num_calls = 3 + 1 :=
  (claim1_threshold_behaviour Nat squareFn 3 false squareCalls4 (by decide)
    (by decide)).2.2

/-- Counterexample to C1 as stated: it quantifies over every limiting
interceptor and every invocation, but for a logging-enabled interceptor
(threshold 3) whose first call carries the keyword argument
`number_argument=1`, the first invocation — one of the "first T invocations" —
does not forward to the wrapped operation and does not return its result: the
logging line raises `TypeError`, because the wrapper passes `**kwargs` to
`print`. -/
theorem claim1_counterexample :
    ((runLimit (LimitCallsObj.init incFn 3 true)
        [⟨[], [("number_argument", 1)]⟩, ⟨[1], []⟩, ⟨[2], []⟩, ⟨[3], []⟩]).2[0]?).map
          CallOutcome.result
      = some (.error (.typeError "number_argument is an invalid keyword argument for print"))
    ∧ ((runLimit (LimitCallsObj.init incFn 3 true)
        [⟨[], [("number_argument", 1)]⟩, ⟨[1], []⟩, ⟨[2], []⟩, ⟨[3], []⟩]).2[0]?).map
          CallOutcome.forwarded
      = some false := by
  decide

/-- Claim C4: for every invocation of a limiting interceptor (either
construction style), the CallLimitExceeded error is raised if and only if the
post-increment counter exceeds the configured threshold; when it is raised,
the result is exactly the `ValueError` whose message carries the wrapped
function's name and the threshold, and the wrapped function is not invoked. -/
theorem claim4_limit_error_iff :
    ∀ (V : Type) (s : LimitCallsObj V) (w : Wrapper2 V) (a b : Args V),
      (isCallLimitExceeded V s.function.name s.max_hits (s.call a).2.result = true
          ↔ s.num_calls + 1 > s.max_hits)
      ∧ (s.num_calls + 1 > s.max_hits →
          (s.call a).2.result = .error (.valueError (limitMsg s.function.name s.max_hits))
          ∧ (s.call a).2.forwarded = false)
      ∧ (isCallLimitExceeded V w.func.name w.max_hits (w.call b).2.result = true
          ↔ w.num_calls + 1 > w.max_hits)
      ∧ (w.num_calls + 1 > w.max_hits →
          (w.call b).2.result = .error (.valueError (limitMsg w.func.name w.max_hits))
          ∧ (w.call b).2.forwarded = false) := by
  intro V s w a b
  refine ⟨call_limitExceeded_iff s a, ?_, ?_, ?_⟩
  · intro hgt
    rw [limitObj_call_snd_reject a hgt]
    exact ⟨rfl, rfl⟩
  · rw [wrapper2_call_snd_eq]
    exact call_limitExceeded_iff (ofWrapper2 w) b
  · intro hgt
    rw [wrapper2_call_snd_eq, limitObj_call_snd_reject b hgt]
    exact ⟨rfl, rfl⟩

/-- Witness for C4: a `square_me` interceptor with threshold 3 whose counter
already stands at 3 rejects the next call without invoking the wrapped
function. -/
theorem claim4_limit_error_iff_witness :
    (({ LimitCallsObj.init squareFn 3 false with num_calls := 3 }).call ⟨[5], []⟩).2.forwarded
      = false :=
  ((claim4_limit_error_iff Nat { LimitCallsObj.init squareFn 3 false with num_calls := 3 }
      (forward_func_call 3 false squareFn) ⟨[5], []⟩ ⟨[5], []⟩).2.1 (by decide)).2

/-- Claim C6: on a logging-enabled limiting interceptor (either construction
style), a successful invocation emits exactly one "Calling:" record — carrying
the operation name, the call index and the positional and keyword arguments —
followed by exactly one "Return from:" record — carrying the operation name,
the call index and the result; an invocation that fails (in particular a
rejected one) emits no record at all, hence zero "after" records. -/
theorem claim6_logging_records :
    ∀ (V : Type) (s : LimitCallsObj V) (w : Wrapper2 V) (a b : Args V),
      s.log_calls = true → w.log_calls = true →
      (∀ v, (s.call a).2.result = .ok v →
          (s.call a).2.records
            = [.before s.function.name (s.num_calls + 1) a.pos a.kw,
               .after s.function.name (s.num_calls + 1) v])
      ∧ (∀ e, (s.call a).2.result = .error e → (s.call a).2.records = [])
      ∧ (∀ v, (w.call b).2.result = .ok v →
          (w.call b).2.records
            = [.before w.func.name (w.num_calls + 1) b.pos b.kw,
               .after w.func.name (w.num_calls + 1) v])
      ∧ (∀ e, (w.call b).2.result = .error e → (w.call b).2.records = []) := by
  intro V s w a b hs hw
  refine ⟨?_, ?_, ?_, ?_⟩
  · intro v hv
    exact limitObj_call_records_ok hs hv
  · intro e he
    exact limitObj_call_records_err he
  · intro v hv
    rw [wrapper2_call_snd_eq] at hv ⊢
    exact limitObj_call_records_ok (s := ofWrapper2 w) hw hv
  · intro e he
    rw [wrapper2_call_snd_eq] at he ⊢
    exact limitObj_call_records_err (s := ofWrapper2 w) he

/-- Witness for C6: the first logged call `square_me(2)` on a logging-enabled
interceptor emits exactly the "Calling:" record with the arguments and the
"Return from:" record with the result 4. -/
theorem claim6_logging_records_witness :
    ((LimitCallsObj.init squareFn 3 true).call ⟨[2], []⟩).2.records
      = [.before "square_me" 1 [2] [], .after "square_me" 1 4] :=
  ((claim6_logging_records Nat (LimitCallsObj.init squareFn 3 true)
      (forward_func_call 3 true squareFn) ⟨[2], []⟩ ⟨[2], []⟩ rfl rfl).1 4 (by decide))

/-- Claim C9: over any sequence of invocation attempts on a limiting
interceptor with threshold `T`, the wrapped function is invoked at most `T`
times; and once an attempt has been rejected with CallLimitExceeded, every
later attempt is also rejected with CallLimitExceeded and never reaches the
wrapped function. -/
theorem claim9_at_most_T_forwards :
    ∀ (V : Type) (f : PyFunc V) (T : Nat) (lc : Bool) (l : List (Args V)),
      (runLimit (LimitCallsObj.init f T lc) l).2.countP (fun o => o.forwarded) ≤ T
      ∧ ∀ (i j : Nat) (oi oj : CallOutcome V), i ≤ j →
          (runLimit (LimitCallsObj.init f T lc) l).2[i]? = some oi →
          (runLimit (LimitCallsObj.init f T lc) l).2[j]? = some oj →
          isCallLimitExceeded V f.name T oi.result = true →
          isCallLimitExceeded V f.name T oj.result = true ∧ oj.forwarded = false := by
  intro V f T lc l
  constructor
  · exact runLimit_countForwarded_le (LimitCallsObj.init f T lc) l
  · intro i j oi oj hij hi hj hlim
    have hil : i < l.length := by
      by_contra hc
      rw [List.getElem?_eq_none (by rw [runLimit_length]; omega)] at hi
      cases hi
    have hjl : j < l.length := by
      by_contra hc
      rw [List.getElem?_eq_none (by rw [runLimit_length]; omega)] at hj
      cases hj
    have hoi := runLimit_getElem? (LimitCallsObj.init f T lc) l i l[i]
      (List.getElem?_eq_getElem hil)
    rw [hi] at hoi
    have hoi' := Option.some.inj hoi
    have hoj := runLimit_getElem? (LimitCallsObj.init f T lc) l j l[j]
      (List.getElem?_eq_getElem hjl)
    rw [hj] at hoj
    have hoj' := Option.some.inj hoj
    have hiT : 0 + i + 1 > T := by
      have hiff := call_limitExceeded_iff
        ({ LimitCallsObj.init f T lc with
            num_calls := (LimitCallsObj.init f T lc).num_calls + i }) l[i]
      exact hiff.mp (hoi' ▸ hlim)
    subst hoj'
    rw [limitObj_call_snd_reject l[j]
      (show 0 + j + 1 > T by omega)]
    constructor
    · show isCallLimitExceeded V f.name T (.error (.valueError (limitMsg f.name T))) = true
      simp [isCallLimitExceeded]
    · rfl

/-- Witness for C9: with threshold 3 and the five calls
`square_me(2) … square_me(6)`, the attempt at index 3 is rejected, so the
attempt at index 4 is rejected as well and is not forwarded. -/
theorem claim9_at_most_T_forwards_witness :
    isCallLimitExceeded Nat "square_me" 3
        ({ result := .error (.valueError (limitMsg "square_me" 3)), records := [],
           forwarded := false } : CallOutcome Nat).result = true
    ∧ ({ result := .error (.valueError (limitMsg "square_me" 3)), records := [],
         forwarded := false } : CallOutcome Nat).forwarded = false :=
  (claim9_at_most_T_forwards Nat squareFn 3 false squareCalls5).2 3 4
    { result := .error (.valueError (limitMsg "square_me" 3)), records := [], forwarded := false }
    { result := .error (.valueError (limitMsg "square_me" 3)), records := [], forwarded := false }
    (by decide) (by decide) (by decide) (by decide)

end DecoratorPy
